import Mathlib

/-!
A shallow embedding of `src/telegrambot.py` (a Solana Telegram trading bot)
and proofs about its session state, position ledger, trade handlers and
price-alert scan.

Python floats are modelled as `ℚ`; Python `None` as `Option.none`;
exceptions from external libraries (`float`, base58/Keypair decoding, the
HTTP client, the RPC client) as explicit `Option`/outcome parameters.
Global dictionaries (`user_pairs`, `price_alerts`, `user_wallets`,
`positions`) and the per-user `context.user_data` flags become one
`BotState` record of total maps `UserId → ·`.
-/

set_option linter.unusedVariables false

namespace TelegramBot

/-- Telegram user identifier (`update.effective_user.id`). -/
abbrev UserId := Nat

/-- A decoded signing keypair (`solders.keypair.Keypair`); modelled by its
key material, which is all the bot observes of it. -/
abbrev Keypair := String

/-- The per-user `context.user_data` awaiting flags, each set independently
by the Python code (`awaiting_connectwallet`, `awaiting_setpair`,
`awaiting_alert`, `awaiting_buy_custom`, `awaiting_sell_custom`). -/
structure Flags where
  awaiting_connectwallet : Bool := false
  awaiting_setpair : Bool := false
  awaiting_alert : Bool := false
  awaiting_buy_custom : Bool := false
  awaiting_sell_custom : Bool := false
deriving DecidableEq, Repr

/-- One entry of the `positions` ledger, as built at
`telegrambot.py:344-350` and `telegrambot.py:427-433`.  `purchase_price`
is an `Option` because the Python value stored there can be `None`
(see `get_dexscreener_info`). -/
structure Position where
  amount : ℚ
  purchase_price : Option ℚ
  signature : String
  timestamp : ℚ
  pair : String
deriving DecidableEq, Repr

/-- The four global dictionaries plus the per-user conversation flags. -/
structure BotState where
  user_pairs : UserId → Option String
  price_alerts : UserId → Option ℚ
  user_wallets : UserId → Option Keypair
  positions : UserId → List Position
  user_data : UserId → Flags

/-- Process start: all dictionaries empty, no flags set. -/
def initState : BotState where
  user_pairs := fun _ => none
  price_alerts := fun _ => none
  user_wallets := fun _ => none
  positions := fun _ => []
  user_data := fun _ => {}

def BotState.setWallet (st : BotState) (u : UserId) (kp : Keypair) : BotState :=
  { st with user_wallets := fun v => if v = u then some kp else st.user_wallets v }

def BotState.setPair (st : BotState) (u : UserId) (p : String) : BotState :=
  { st with user_pairs := fun v => if v = u then some p else st.user_pairs v }

def BotState.setAlert (st : BotState) (u : UserId) (t : ℚ) : BotState :=
  { st with price_alerts := fun v => if v = u then some t else st.price_alerts v }

def BotState.appendPosition (st : BotState) (u : UserId) (pos : Position) : BotState :=
  { st with positions := fun v => if v = u then st.positions v ++ [pos] else st.positions v }

def BotState.setPositions (st : BotState) (u : UserId) (ps : List Position) : BotState :=
  { st with positions := fun v => if v = u then ps else st.positions v }

def BotState.updateFlags (st : BotState) (u : UserId) (f : Flags → Flags) : BotState :=
  { st with user_data := fun v => if v = u then f (st.user_data v) else st.user_data v }

/-! ## 3. DEX screener info (`get_dexscreener_info`, telegrambot.py:72-86) -/

/-- The upstream DexScreener JSON, reduced to the fields the bot reads: a
transport/parse failure, or a (possibly empty) list of pair entries each
carrying an optional `priceUsd` string and an optional `icon`.
`priceUsd = none` covers both an absent key and a falsy value (Python
`if price_usd` guards both the same way). -/
structure RawPair where
  priceUsd : Option String
  icon : Option String

inductive RawResponse
  | failure
  | ok (pairs : List RawPair)

/-- The dict returned by `get_dexscreener_info`: either `{}` or
`{"price": float-or-None, "icon": icon}`. -/
inductive DexInfo
  | empty
  | pairInfo (price : Option ℚ) (icon : Option String)
deriving DecidableEq, Repr

/-- Python truthiness of the optional `priceUsd` string: `None` and `""`
are falsy, any other string truthy. -/
def pyTruthyStr : Option String → Bool
  | none => false
  | some s => s ≠ ""

/-- `get_dexscreener_info` (telegrambot.py:72-86).  `pyFloat` stands for
Python `float(·)` applied to the `priceUsd` string.  A request exception or
a payload without a non-empty `pairs` list yields `{}`; otherwise the first
pair entry is read, with `price = float(priceUsd) if priceUsd else None`. -/
def get_dexscreener_info (pyFloat : String → ℚ) : RawResponse → DexInfo
  | .failure => .empty
  | .ok [] => .empty
  | .ok (pair_info :: _) =>
      .pairInfo
        (if pyTruthyStr pair_info.priceUsd
          then some (pyFloat (pair_info.priceUsd.getD ""))
          else none)
        pair_info.icon

/-- Python `info.get("price")`: `none` when the dict is `{}` or the stored
price is `None`. -/
def DexInfo.priceOpt : DexInfo → Option ℚ
  | .empty => none
  | .pairInfo p _ => p

/-- Python `info.get("price", default)`: the default is used only when the
`"price"` key is absent (dict `{}`); a stored `None` is returned as-is. -/
def DexInfo.priceGetD (info : DexInfo) (default : ℚ) : Option ℚ :=
  match info with
  | .empty => some default
  | .pairInfo p _ => p

/-! ## 4. Blockchain transaction functions (telegrambot.py:89-139) -/

/-- Outcome of the single `send_transaction` RPC attempt a call makes:
either a signature or a raised exception with message `msg`. -/
inductive Backend
  | ok (signature : String)
  | exn (msg : String)

/-- The dict `{"status", "signature", "error"}` returned by
`execute_buy_transaction` / `execute_sell_transaction`. -/
structure TxDict where
  status : String
  signature : Option String
  error : Option String
deriving DecidableEq, Repr

/-- Substring test on character lists (Python `needle in hay`). -/
def listContains (needle : List Char) : List Char → Bool
  | [] => needle.isEmpty
  | c :: t => needle.isPrefixOf (c :: t) || listContains needle t

/-- Python `needle in hay` on strings. -/
def strContains (hay needle : String) : Bool :=
  listContains needle.data hay.data

/-- Python `str.lower()` (character-wise). -/
def pyLower (s : String) : String := ⟨s.data.map Char.toLower⟩

/-- The user-facing message built in the `except` branch of
`execute_buy_transaction` (telegrambot.py:106-113). -/
def buy_error_message (e : String) : String :=
  if strContains (pyLower e) "insufficient funds"
    then "Insufficient funds for purchase."
    else "Error during purchase: " ++ e

/-- The user-facing message built in the `except` branch of
`execute_sell_transaction` (telegrambot.py:132-139). -/
def sell_error_message (e : String) : String :=
  if strContains (pyLower e) "insufficient funds"
    then "Insufficient funds for sale."
    else "Error during sale: " ++ e

/-- `execute_buy_transaction` (telegrambot.py:89-113): one submission
attempt; on success `{"status":"ok", "signature":sig, "error":None}`, on
exception the classified error dict.  `amount` and `user_kp` only shape the
transfer instruction, which has no further observable effect here. -/
def execute_buy_transaction (amount : ℚ) (user_kp : Keypair) : Backend → TxDict
  | .ok sig => ⟨"ok", some sig, none⟩
  | .exn e => ⟨"error", none, some (buy_error_message e)⟩

/-- `execute_sell_transaction` (telegrambot.py:115-139). -/
def execute_sell_transaction (amount : ℚ) (user_kp : Keypair) : Backend → TxDict
  | .ok sig => ⟨"ok", some sig, none⟩
  | .exn e => ⟨"error", none, some (sell_error_message e)⟩

/-! ## Outgoing replies and ledger-call traces -/

/-- The outgoing chat messages the handlers can send, reduced to their
identity and the data interpolated into them. -/
inductive Reply
  | needWallet
  | needWalletBuy
  | needWalletSell
  | buyKeyboard
  | sellKeyboard
  | promptConnectwallet
  | promptSetpair
  | promptAlert
  | promptBuyCustom
  | promptSellCustom
  | errorMsg (text : String)
  | purchaseExecuted (amount : ℚ) (signature : String)
  | saleExecuted (amount : ℚ) (signature : String)
  | sellAllExecuted (amount : ℚ) (signature : String)
  | nothingToSell
  | walletConnected (kp : Keypair)
  | walletConnectError
  | pairSet (pair : String)
  | alertSet (threshold : ℚ)
  | invalidPrice
  | invalidAmount
  | usageSetpair
  | usageAlert
  | mainMenu
  | balanceDispatch
  | positionsDispatch
  | unhandledKeyError
deriving DecidableEq, Repr

/-- A transfer submission sent to the blockchain backend. -/
inductive LedgerCall
  | buyTransfer (amount : ℚ)
  | sellTransfer (amount : ℚ)
deriving DecidableEq, Repr

/-- Result of running a handler: the new global state, the replies sent,
and the transfer submissions made (in order). -/
structure HResult where
  state : BotState
  replies : List Reply
  calls : List LedgerCall

/-! ## 9. Buy/sell handlers (telegrambot.py:289-455) -/

/-- `buy_command` (telegrambot.py:289-302): no state change, a wallet
gate then the preset keyboard. -/
def buy_command (st : BotState) (user_id : UserId) : List Reply :=
  match st.user_wallets user_id with
  | none => [.needWalletBuy]
  | some _ => [.buyKeyboard]

/-- `sell_command` (telegrambot.py:304-318). -/
def sell_command (st : BotState) (user_id : UserId) : List Reply :=
  match st.user_wallets user_id with
  | none => [.needWalletSell]
  | some _ => [.sellKeyboard]

/-- The callback data strings matched by `handle_buy_sell_callback`:
`buy_custom`, `buy_<amount>`, `sell_custom`, `sell_all`, `sell_<amount>`
(with `float(data.split("_")[1])` already applied for the amount forms). -/
inductive BuySellData
  | buy_custom
  | buy_amount (amount : ℚ)
  | sell_custom
  | sell_all
  | sell_amount (amount : ℚ)

/-- `handle_buy_sell_callback` (telegrambot.py:320-383).  `oracle` is
`get_dexscreener_info CHAIN_ID ·` as a function of the pair id, `backend`
the outcome of the single `send_transaction` this invocation may attempt,
`now` the value of `time.time()`. -/
def handle_buy_sell_callback (st : BotState) (user_id : UserId) (data : BuySellData)
    (oracle : String → DexInfo) (backend : Backend) (now : ℚ) : HResult :=
  match st.user_wallets user_id with
  | none => ⟨st, [.needWallet], []⟩
  | some user_kp =>
    match data with
    | .buy_custom =>
        ⟨st.updateFlags user_id (fun f => { f with awaiting_buy_custom := true }),
         [.promptBuyCustom], []⟩
    | .buy_amount amount =>
        let current_price : Option ℚ :=
          match st.user_pairs user_id with
          | some pair_id => (oracle pair_id).priceGetD 0
          | none => some 0
        let result_dict := execute_buy_transaction amount user_kp backend
        if result_dict.status = "error" then
          ⟨st, [.errorMsg (result_dict.error.getD "")], [.buyTransfer amount]⟩
        else
          let pos : Position :=
            { amount := amount
              purchase_price := current_price
              signature := result_dict.signature.getD ""
              timestamp := now
              pair := (st.user_pairs user_id).getD "" }
          ⟨st.appendPosition user_id pos,
           [.purchaseExecuted amount (result_dict.signature.getD "")],
           [.buyTransfer amount]⟩
    | .sell_custom =>
        ⟨st.updateFlags user_id (fun f => { f with awaiting_sell_custom := true }),
         [.promptSellCustom], []⟩
    | .sell_all =>
        let current_pair := (st.user_pairs user_id).getD ""
        let total_amount :=
          ((st.positions user_id).filter (fun pos => pos.pair == current_pair)).foldl
            (fun acc pos => acc + pos.amount) 0
        if total_amount = 0 then ⟨st, [.nothingToSell], []⟩
        else
          let result_dict := execute_sell_transaction total_amount user_kp backend
          if result_dict.status = "error" then
            ⟨st, [.errorMsg (result_dict.error.getD "")], [.sellTransfer total_amount]⟩
          else
            ⟨st.setPositions user_id
               ((st.positions user_id).filter (fun pos => pos.pair != current_pair)),
             [.sellAllExecuted total_amount (result_dict.signature.getD "")],
             [.sellTransfer total_amount]⟩
    | .sell_amount amount =>
        let result_dict := execute_sell_transaction amount user_kp backend
        if result_dict.status = "error" then
          ⟨st, [.errorMsg (result_dict.error.getD "")], [.sellTransfer amount]⟩
        else
          ⟨st, [.saleExecuted amount (result_dict.signature.getD "")],
           [.sellTransfer amount]⟩

/-- `message_handler` (telegrambot.py:385-455).  `pyFloat` models Python
`float(·)` (`none` = `ValueError`), `decodeKey` models
`Keypair.from_bytes(base58.b58decode(·))` (`none` = any exception).  The
`Reply.unhandledKeyError` constructor marks the uncaught `KeyError` the
Python raises when `user_wallets[user_id]` is evaluated without a binding
in the custom buy/sell branches. -/
def message_handler (st : BotState) (user_id : UserId) (user_text : String)
    (pyFloat : String → Option ℚ) (decodeKey : String → Option Keypair)
    (oracle : String → DexInfo) (backend : Backend) (now : ℚ) : HResult :=
  let flags := st.user_data user_id
  if flags.awaiting_connectwallet then
    let st1 := st.updateFlags user_id (fun f => { f with awaiting_connectwallet := false })
    match decodeKey user_text with
    | some new_kp =>
        ⟨st1.setWallet user_id new_kp, [.walletConnected new_kp, .mainMenu], []⟩
    | none => ⟨st1, [.walletConnectError, .mainMenu], []⟩
  else if flags.awaiting_setpair then
    let st1 := st.updateFlags user_id (fun f => { f with awaiting_setpair := false })
    ⟨st1.setPair user_id user_text, [.pairSet user_text, .mainMenu], []⟩
  else if flags.awaiting_alert then
    let st1 := st.updateFlags user_id (fun f => { f with awaiting_alert := false })
    match pyFloat user_text with
    | some threshold => ⟨st1.setAlert user_id threshold, [.alertSet threshold], []⟩
    | none => ⟨st1, [.invalidPrice], []⟩
  else if flags.awaiting_buy_custom then
    let st1 := st.updateFlags user_id (fun f => { f with awaiting_buy_custom := false })
    match pyFloat user_text with
    | none => ⟨st1, [.invalidAmount], []⟩
    | some amount =>
        let current_price : Option ℚ :=
          match st1.user_pairs user_id with
          | some pair_id => (oracle pair_id).priceGetD 0
          | none => some 0
        match st1.user_wallets user_id with
        | none => ⟨st1, [.unhandledKeyError], []⟩
        | some kp =>
            let result_dict := execute_buy_transaction amount kp backend
            if result_dict.status = "error" then
              ⟨st1, [.errorMsg (result_dict.error.getD "")], [.buyTransfer amount]⟩
            else
              let pos : Position :=
                { amount := amount
                  purchase_price := current_price
                  signature := result_dict.signature.getD ""
                  timestamp := now
                  pair := (st1.user_pairs user_id).getD "" }
              ⟨st1.appendPosition user_id pos,
               [.purchaseExecuted amount (result_dict.signature.getD "")],
               [.buyTransfer amount]⟩
  else if flags.awaiting_sell_custom then
    let st1 := st.updateFlags user_id (fun f => { f with awaiting_sell_custom := false })
    match pyFloat user_text with
    | none => ⟨st1, [.invalidAmount], []⟩
    | some amount =>
        match st1.user_wallets user_id with
        | none => ⟨st1, [.unhandledKeyError], []⟩
        | some kp =>
            let result_dict := execute_sell_transaction amount kp backend
            if result_dict.status = "error" then
              ⟨st1, [.errorMsg (result_dict.error.getD "")], [.sellTransfer amount]⟩
            else
              ⟨st1, [.saleExecuted amount (result_dict.signature.getD "")],
               [.sellTransfer amount]⟩
  else ⟨st, [], []⟩

/-! ## 7-8. Menu callback and traditional commands -/

/-- The `menu_*` callback data strings. -/
inductive MenuData
  | menu_connectwallet
  | menu_setpair
  | menu_buy
  | menu_sell
  | menu_balance
  | menu_positions
  | menu_alert

/-- `handle_main_menu_callback` (telegrambot.py:172-192): the three
`Awaiting*` prompts set their flag without clearing the others; the other
buttons dispatch without touching state. -/
def handle_main_menu_callback (st : BotState) (user_id : UserId) (data : MenuData) :
    BotState × List Reply :=
  match data with
  | .menu_connectwallet =>
      (st.updateFlags user_id (fun f => { f with awaiting_connectwallet := true }),
       [.promptConnectwallet])
  | .menu_setpair =>
      (st.updateFlags user_id (fun f => { f with awaiting_setpair := true }),
       [.promptSetpair])
  | .menu_buy => (st, buy_command st user_id)
  | .menu_sell => (st, sell_command st user_id)
  | .menu_balance => (st, [.balanceDispatch])
  | .menu_positions => (st, [.positionsDispatch])
  | .menu_alert =>
      (st.updateFlags user_id (fun f => { f with awaiting_alert := true }),
       [.promptAlert])

/-- `connectwallet_command` (telegrambot.py:195-208). -/
def connectwallet_command (st : BotState) (user_id : UserId) (args : List String)
    (decodeKey : String → Option Keypair) : BotState × List Reply :=
  match args with
  | [] =>
      (st.updateFlags user_id (fun f => { f with awaiting_connectwallet := true }),
       [.promptConnectwallet])
  | pk_base58 :: _ =>
      match decodeKey pk_base58 with
      | some new_kp => (st.setWallet user_id new_kp, [.walletConnected new_kp, .mainMenu])
      | none => (st, [.walletConnectError, .mainMenu])

/-- `setpair_command` (telegrambot.py:210-217). -/
def setpair_command (st : BotState) (user_id : UserId) (args : List String) :
    BotState × List Reply :=
  match args with
  | [] => (st, [.usageSetpair])
  | pair_id :: _ => (st.setPair user_id pair_id, [.pairSet pair_id, .mainMenu])

/-- `alert_command` (telegrambot.py:276-286). -/
def alert_command (st : BotState) (user_id : UserId) (args : List String)
    (pyFloat : String → Option ℚ) : BotState × List Reply :=
  match args with
  | [] => (st, [.usageAlert])
  | a :: _ =>
      match pyFloat a with
      | some threshold => (st.setAlert user_id threshold, [.alertSet threshold])
      | none => (st, [.invalidPrice])

/-- Outcome of `positions_command` (telegrambot.py:249-274).
`typeError` marks the uncaught `TypeError` Python raises when the PnL
arithmetic hits a `None` operand. -/
inductive PositionsOutcome
  | noOpenPositions
  | noPairSet
  | noPositionsForPair
  | report (total_pnl : ℚ)
  | typeError
deriving DecidableEq, Repr

/-- `positions_command` (telegrambot.py:249-274).  The PnL loop computes
`(current_price - pos["purchase_price"]) * pos["amount"]`; when
`current_price` (a bare `.get("price")`) or a stored `purchase_price` is
`None`, that subtraction raises, modelled as `.typeError`. -/
def positions_command (st : BotState) (user_id : UserId) (oracle : String → DexInfo) :
    PositionsOutcome :=
  if (st.positions user_id).isEmpty then .noOpenPositions
  else
    match st.user_pairs user_id with
    | none => .noPairSet
    | some current_pair =>
      let filtered_positions :=
        (st.positions user_id).filter (fun pos => pos.pair == current_pair)
      if filtered_positions.isEmpty then .noPositionsForPair
      else
        match (oracle current_pair).priceOpt with
        | none => .typeError
        | some current_price =>
          if filtered_positions.all (fun pos => pos.purchase_price.isSome) then
            .report (filtered_positions.foldl
              (fun acc pos => acc + (current_price - pos.purchase_price.getD 0) * pos.amount) 0)
          else .typeError

/-! ## 10. Price alert job (`price_watcher`, telegrambot.py:458-474) -/

/-- Whether one `price_watcher` cycle notifies `user_id`: the user must
hold an alert threshold and exactly the Python guard
`if price and price >= threshold` must pass (so a `None` price, a missing
pair, and a price of exactly `0.0` all suppress the alert). -/
def price_watcher_notifies (st : BotState) (oracle : String → DexInfo)
    (user_id : UserId) : Bool :=
  match st.price_alerts user_id with
  | none => false
  | some threshold =>
    match st.user_pairs user_id with
    | none => false
    | some pair_id =>
      match (oracle pair_id).priceOpt with
      | none => false
      | some price => decide (price ≠ 0 ∧ threshold ≤ price)

/-! ## Event system: every handler wired in `main` that mutates state -/

/-- One dispatched update, carrying the external-world inputs
(parse results, oracle snapshot, backend outcome, clock) it consumes. -/
inductive Event
  | menuCallback (u : UserId) (d : MenuData)
  | buySellCallback (u : UserId) (d : BuySellData)
      (oracle : String → DexInfo) (backend : Backend) (now : ℚ)
  | message (u : UserId) (text : String)
      (pyFloat : String → Option ℚ) (decodeKey : String → Option Keypair)
      (oracle : String → DexInfo) (backend : Backend) (now : ℚ)
  | cmdConnectwallet (u : UserId) (args : List String)
      (decodeKey : String → Option Keypair)
  | cmdSetpair (u : UserId) (args : List String)
  | cmdAlert (u : UserId) (args : List String) (pyFloat : String → Option ℚ)
  | cmdStart (u : UserId)
  | cmdBuy (u : UserId)
  | cmdSell (u : UserId)
  | cmdBalance (u : UserId)
  | cmdPositions (u : UserId)
  | cmdPrice (u : UserId)

/-- The state transition of one dispatched update.  `/start`, `/buy`,
`/sell`, `/balance`, `/positions` and `/price` only send replies. -/
def step (st : BotState) : Event → BotState
  | .menuCallback u d => (handle_main_menu_callback st u d).1
  | .buySellCallback u d oracle backend now =>
      (handle_buy_sell_callback st u d oracle backend now).state
  | .message u text pyFloat decodeKey oracle backend now =>
      (message_handler st u text pyFloat decodeKey oracle backend now).state
  | .cmdConnectwallet u args decodeKey => (connectwallet_command st u args decodeKey).1
  | .cmdSetpair u args => (setpair_command st u args).1
  | .cmdAlert u args pyFloat => (alert_command st u args pyFloat).1
  | .cmdStart _ => st
  | .cmdBuy _ => st
  | .cmdSell _ => st
  | .cmdBalance _ => st
  | .cmdPositions _ => st
  | .cmdPrice _ => st

/-- States reachable from process start by any sequence of updates. -/
inductive Reachable : BotState → Prop
  | init : Reachable initState
  | next {st : BotState} (e : Event) : Reachable st → Reachable (step st e)

/-! ## Frame lemmas for the state helpers -/

@[simp] theorem setWallet_positions (st : BotState) (u : UserId) (kp : Keypair) :
    (st.setWallet u kp).positions = st.positions := rfl

@[simp] theorem setWallet_user_pairs (st : BotState) (u : UserId) (kp : Keypair) :
    (st.setWallet u kp).user_pairs = st.user_pairs := rfl

@[simp] theorem setWallet_price_alerts (st : BotState) (u : UserId) (kp : Keypair) :
    (st.setWallet u kp).price_alerts = st.price_alerts := rfl

@[simp] theorem setWallet_user_data (st : BotState) (u : UserId) (kp : Keypair) :
    (st.setWallet u kp).user_data = st.user_data := rfl

@[simp] theorem setPair_positions (st : BotState) (u : UserId) (p : String) :
    (st.setPair u p).positions = st.positions := rfl

@[simp] theorem setPair_user_wallets (st : BotState) (u : UserId) (p : String) :
    (st.setPair u p).user_wallets = st.user_wallets := rfl

@[simp] theorem setPair_price_alerts (st : BotState) (u : UserId) (p : String) :
    (st.setPair u p).price_alerts = st.price_alerts := rfl

@[simp] theorem setPair_user_data (st : BotState) (u : UserId) (p : String) :
    (st.setPair u p).user_data = st.user_data := rfl

@[simp] theorem setAlert_positions (st : BotState) (u : UserId) (t : ℚ) :
    (st.setAlert u t).positions = st.positions := rfl

@[simp] theorem setAlert_user_wallets (st : BotState) (u : UserId) (t : ℚ) :
    (st.setAlert u t).user_wallets = st.user_wallets := rfl

@[simp] theorem setAlert_user_pairs (st : BotState) (u : UserId) (t : ℚ) :
    (st.setAlert u t).user_pairs = st.user_pairs := rfl

@[simp] theorem setAlert_user_data (st : BotState) (u : UserId) (t : ℚ) :
    (st.setAlert u t).user_data = st.user_data := rfl

@[simp] theorem updateFlags_positions (st : BotState) (u : UserId) (f : Flags → Flags) :
    (st.updateFlags u f).positions = st.positions := rfl

@[simp] theorem updateFlags_user_wallets (st : BotState) (u : UserId) (f : Flags → Flags) :
    (st.updateFlags u f).user_wallets = st.user_wallets := rfl

@[simp] theorem updateFlags_user_pairs (st : BotState) (u : UserId) (f : Flags → Flags) :
    (st.updateFlags u f).user_pairs = st.user_pairs := rfl

@[simp] theorem updateFlags_price_alerts (st : BotState) (u : UserId) (f : Flags → Flags) :
    (st.updateFlags u f).price_alerts = st.price_alerts := rfl

@[simp] theorem appendPosition_user_wallets (st : BotState) (u : UserId) (p : Position) :
    (st.appendPosition u p).user_wallets = st.user_wallets := rfl

@[simp] theorem appendPosition_user_pairs (st : BotState) (u : UserId) (p : Position) :
    (st.appendPosition u p).user_pairs = st.user_pairs := rfl

@[simp] theorem appendPosition_user_data (st : BotState) (u : UserId) (p : Position) :
    (st.appendPosition u p).user_data = st.user_data := rfl

@[simp] theorem appendPosition_positions_self (st : BotState) (u : UserId) (p : Position) :
    (st.appendPosition u p).positions u = st.positions u ++ [p] := by
  simp [BotState.appendPosition]

theorem appendPosition_positions_other (st : BotState) (u v : UserId) (p : Position)
    (h : v ≠ u) : (st.appendPosition u p).positions v = st.positions v := by
  simp [BotState.appendPosition, h]

@[simp] theorem setPositions_user_wallets (st : BotState) (u : UserId) (ps : List Position) :
    (st.setPositions u ps).user_wallets = st.user_wallets := rfl

@[simp] theorem setPositions_user_data (st : BotState) (u : UserId) (ps : List Position) :
    (st.setPositions u ps).user_data = st.user_data := rfl

@[simp] theorem setPositions_positions_self (st : BotState) (u : UserId) (ps : List Position) :
    (st.setPositions u ps).positions u = ps := by
  simp [BotState.setPositions]

theorem setPositions_positions_other (st : BotState) (u v : UserId) (ps : List Position)
    (h : v ≠ u) : (st.setPositions u ps).positions v = st.positions v := by
  simp [BotState.setPositions, h]

@[simp] theorem updateFlags_user_data_self (st : BotState) (u : UserId) (f : Flags → Flags) :
    (st.updateFlags u f).user_data u = f (st.user_data u) := by
  simp [BotState.updateFlags]

theorem updateFlags_user_data_other (st : BotState) (u v : UserId) (f : Flags → Flags)
    (h : v ≠ u) : (st.updateFlags u f).user_data v = st.user_data v := by
  simp [BotState.updateFlags, h]

@[simp] theorem setWallet_user_wallets_self (st : BotState) (u : UserId) (kp : Keypair) :
    (st.setWallet u kp).user_wallets u = some kp := by
  simp [BotState.setWallet]

theorem setWallet_user_wallets_other (st : BotState) (u v : UserId) (kp : Keypair)
    (h : v ≠ u) : (st.setWallet u kp).user_wallets v = st.user_wallets v := by
  simp [BotState.setWallet, h]

@[simp] theorem setPair_user_pairs_self (st : BotState) (u : UserId) (p : String) :
    (st.setPair u p).user_pairs u = some p := by
  simp [BotState.setPair]

theorem setPair_user_pairs_other (st : BotState) (u v : UserId) (p : String)
    (h : v ≠ u) : (st.setPair u p).user_pairs v = st.user_pairs v := by
  simp [BotState.setPair, h]

@[simp] theorem setAlert_price_alerts_self (st : BotState) (u : UserId) (t : ℚ) :
    (st.setAlert u t).price_alerts u = some t := by
  simp [BotState.setAlert]

theorem setAlert_price_alerts_other (st : BotState) (u v : UserId) (t : ℚ)
    (h : v ≠ u) : (st.setAlert u t).price_alerts v = st.price_alerts v := by
  simp [BotState.setAlert, h]

/-- The Python `sum(pos["amount"] for pos in ps)` as a `List.sum`. -/
theorem foldl_amount_eq_sum (ps : List Position) (init : ℚ) :
    ps.foldl (fun acc pos => acc + pos.amount) init
      = init + (ps.map Position.amount).sum := by
  induction ps generalizing init with
  | nil => simp
  | cons p t ih => simp [List.foldl_cons, ih]; ring

/-! ## Helper lemmas about the transaction wrappers -/

theorem no_string_eq_insufficient_purchase (e : String) :
    "Error during purchase: " ++ e ≠ "Insufficient funds for purchase." := by
  intro h
  have h2 := congrArg String.data h
  rw [String.data_append] at h2
  have h3 : "Error during purchase: ".data = 'E' :: "rror during purchase: ".data := rfl
  rw [h3, List.cons_append] at h2
  have h4 : "Insufficient funds for purchase.".data
      = 'I' :: "nsufficient funds for purchase.".data := rfl
  rw [h4] at h2
  injection h2 with h5 _
  exact absurd h5 (by decide)

theorem no_string_eq_insufficient_sale (e : String) :
    "Error during sale: " ++ e ≠ "Insufficient funds for sale." := by
  intro h
  have h2 := congrArg String.data h
  rw [String.data_append] at h2
  have h3 : "Error during sale: ".data = 'E' :: "rror during sale: ".data := rfl
  rw [h3, List.cons_append] at h2
  have h4 : "Insufficient funds for sale.".data
      = 'I' :: "nsufficient funds for sale.".data := rfl
  rw [h4] at h2
  injection h2 with h5 _
  exact absurd h5 (by decide)

/-! ## Claim theorems -/

/-- C8: for every failed transfer submission (buy or sell), the returned
dict has status `"error"` and no signature; the error is the
`InsufficientFunds` message exactly when the raised message contains the
(lower-cased) `"insufficient funds"` signature, and otherwise it is the
backend-error message carrying the raw exception text.  The wrappers make
exactly one submission attempt, so a failure is terminal with no retry. -/
theorem transfer_failure_classification (amount : ℚ) (user_kp : Keypair) (e : String) :
    (execute_buy_transaction amount user_kp (.exn e)).status = "error" ∧
    (execute_buy_transaction amount user_kp (.exn e)).signature = none ∧
    (execute_sell_transaction amount user_kp (.exn e)).status = "error" ∧
    (execute_sell_transaction amount user_kp (.exn e)).signature = none ∧
    ((execute_buy_transaction amount user_kp (.exn e)).error
        = some "Insufficient funds for purchase."
      ↔ strContains (pyLower e) "insufficient funds" = true) ∧
    ((execute_sell_transaction amount user_kp (.exn e)).error
        = some "Insufficient funds for sale."
      ↔ strContains (pyLower e) "insufficient funds" = true) ∧
    (strContains (pyLower e) "insufficient funds" = false →
      (execute_buy_transaction amount user_kp (.exn e)).error
          = some ("Error during purchase: " ++ e) ∧
      (execute_sell_transaction amount user_kp (.exn e)).error
          = some ("Error during sale: " ++ e)) := by
  refine ⟨rfl, rfl, rfl, rfl, ?_, ?_, ?_⟩
  · constructor
    · intro h
      cases hb : strContains (pyLower e) "insufficient funds"
      · exfalso
        simp [execute_buy_transaction, buy_error_message, hb] at h
        exact no_string_eq_insufficient_purchase e h
      · rfl
    · intro hb
      simp [execute_buy_transaction, buy_error_message, hb]
  · constructor
    · intro h
      cases hb : strContains (pyLower e) "insufficient funds"
      · exfalso
        simp [execute_sell_transaction, sell_error_message, hb] at h
        exact no_string_eq_insufficient_sale e h
      · rfl
    · intro hb
      simp [execute_sell_transaction, sell_error_message, hb]
  · intro hb
    exact ⟨by simp [execute_buy_transaction, buy_error_message, hb],
           by simp [execute_sell_transaction, sell_error_message, hb]⟩

/-- Witness for `transfer_failure_classification`: both classification
directions at concrete exception messages. -/
theorem transfer_failure_classification_witness :
    (execute_buy_transaction 1 "KP" (.exn "Transfer: insufficient funds for fee")).error
        = some "Insufficient funds for purchase." ∧
    (execute_sell_transaction 1 "KP" (.exn "node timeout")).error
        = some ("Error during sale: " ++ "node timeout") := by
  constructor
  · exact (transfer_failure_classification 1 "KP"
      "Transfer: insufficient funds for fee").2.2.2.2.1.mpr (by decide)
  · exact ((transfer_failure_classification 1 "KP" "node timeout").2.2.2.2.2.2
      (by decide)).2

/-- C9: a Sell with a fixed preset or custom amount (not Sell All) never
removes, adds or modifies any position, whether the backend succeeds or
fails; the custom free-text path is covered by the fact that
`message_handler` leaves every position list untouched unless it runs the
custom-buy branch. -/
theorem sell_fixed_or_custom_preserves_positions
    (st : BotState) (u : UserId) (amount : ℚ) (text : String)
    (pyFloat : String → Option ℚ) (decodeKey : String → Option Keypair)
    (oracle : String → DexInfo) (backend : Backend) (now : ℚ) :
    (∀ v, (handle_buy_sell_callback st u (.sell_amount amount) oracle backend now).state.positions v
        = st.positions v) ∧
    (∀ v, (handle_buy_sell_callback st u .sell_custom oracle backend now).state.positions v
        = st.positions v) ∧
    ((st.user_data u).awaiting_buy_custom = false →
      ∀ v, (message_handler st u text pyFloat decodeKey oracle backend now).state.positions v
        = st.positions v) := by
  refine ⟨?_, ?_, ?_⟩
  · intro v
    cases hw : st.user_wallets u with
    | none => simp [handle_buy_sell_callback, hw]
    | some kp =>
      cases backend with
      | ok sig => simp [handle_buy_sell_callback, hw, execute_sell_transaction]
      | exn e => simp [handle_buy_sell_callback, hw, execute_sell_transaction]
  · intro v
    cases hw : st.user_wallets u with
    | none => simp [handle_buy_sell_callback, hw]
    | some kp => simp [handle_buy_sell_callback, hw]
  · intro hbuy v
    unfold message_handler
    by_cases h1 : (st.user_data u).awaiting_connectwallet
    · cases hdk : decodeKey text <;> simp [h1, hdk]
    · by_cases h2 : (st.user_data u).awaiting_setpair
      · simp [h1, h2]
      · by_cases h3 : (st.user_data u).awaiting_alert
        · cases hpf : pyFloat text <;> simp [h1, h2, h3, hpf]
        · by_cases h5 : (st.user_data u).awaiting_sell_custom
          · cases hpf : pyFloat text with
            | none => simp [h1, h2, h3, hbuy, h5, hpf]
            | some a =>
              cases hw : st.user_wallets u with
              | none => simp [h1, h2, h3, hbuy, h5, hpf, hw]
              | some kp =>
                cases backend <;>
                  simp [h1, h2, h3, hbuy, h5, hpf, hw, execute_sell_transaction]
          · simp [h1, h2, h3, hbuy, h5]

/-- Witness for `sell_fixed_or_custom_preserves_positions` at a concrete
state holding one position. -/
theorem sell_fixed_or_custom_preserves_positions_witness :
    (handle_buy_sell_callback
      ⟨fun _ => some "P", fun _ => none, fun _ => some "KP",
       fun _ => [⟨3, some 2, "SIG", 0, "P"⟩], fun _ => {}⟩
      1 (.sell_amount 10) (fun _ => .empty) (.ok "SIG2") 0).state.positions 1
      = [⟨3, some 2, "SIG", 0, "P"⟩] := by
  exact (sell_fixed_or_custom_preserves_positions
    ⟨fun _ => some "P", fun _ => none, fun _ => some "KP",
     fun _ => [⟨3, some 2, "SIG", 0, "P"⟩], fun _ => {}⟩
    1 10 "" (fun _ => none) (fun _ => none) (fun _ => .empty) (.ok "SIG2") 0).1 1

/-- C6 counterexample: with threshold `0` set, a pair selected and the
oracle returning the fetched price `0` (reachable from a raw DexScreener
payload with `priceUsd = "0"`), the price satisfies `price >= threshold`
and yet no notification fires, because Python's `if price and ...` treats
`0.0` as falsy. -/
theorem price_watcher_zero_price_counterexample :
    price_watcher_notifies
      ⟨fun _ => some "P", fun _ => some 0, fun _ => none, fun _ => [], fun _ => {}⟩
      (fun _ => .pairInfo (some 0) none) 1 = false
    ∧ ((0 : ℚ) ≥ (0 : ℚ))
    ∧ (⟨fun _ => some "P", fun _ => some 0, fun _ => none, fun _ => [], fun _ => {}⟩
        : BotState).price_alerts 1 = some 0
    ∧ get_dexscreener_info (fun _ => 0) (.ok [⟨some "0", none⟩])
        = .pairInfo (some 0) none := by
  exact ⟨by decide, le_refl 0, rfl, rfl⟩

/-- C6 (amended): for a user with an alert threshold and a selected pair
whose price fetch yields a price value, a notification is emitted in a
cycle iff that price is nonzero and `price >= threshold`; the scan keeps
no memory between cycles, so with threshold `10` and the price sequence
`[9, 11, 11]` it fires on cycles 2 and 3 and not on cycle 1. -/
theorem price_watcher_fires_iff (st : BotState) (oracle : String → DexInfo)
    (u : UserId) (threshold price : ℚ) (pair_id : String)
    (halert : st.price_alerts u = some threshold)
    (hpair : st.user_pairs u = some pair_id)
    (hprice : (oracle pair_id).priceOpt = some price) :
    (price_watcher_notifies st oracle u = true ↔ price ≠ 0 ∧ threshold ≤ price)
    ∧ (price_watcher_notifies
        ⟨fun _ => some "P", fun _ => some 10, fun _ => none, fun _ => [], fun _ => {}⟩
        (fun _ => .pairInfo (some 9) none) 1 = false
      ∧ price_watcher_notifies
        ⟨fun _ => some "P", fun _ => some 10, fun _ => none, fun _ => [], fun _ => {}⟩
        (fun _ => .pairInfo (some 11) none) 1 = true
      ∧ price_watcher_notifies
        ⟨fun _ => some "P", fun _ => some 10, fun _ => none, fun _ => [], fun _ => {}⟩
        (fun _ => .pairInfo (some 11) none) 1 = true) := by
  constructor
  · simp [price_watcher_notifies, halert, hpair, hprice]
  · exact ⟨by decide, by decide, by decide⟩

/-- Witness for `price_watcher_fires_iff`: a concrete subscription above
threshold does notify. -/
theorem price_watcher_fires_iff_witness :
    price_watcher_notifies
      ⟨fun _ => some "P", fun _ => some 10, fun _ => none, fun _ => [], fun _ => {}⟩
      (fun _ => .pairInfo (some 11) none) 1 = true := by
  exact (price_watcher_fires_iff
    ⟨fun _ => some "P", fun _ => some 10, fun _ => none, fun _ => [], fun _ => {}⟩
    (fun _ => .pairInfo (some 11) none) 1 10 11 "P" rfl rfl rfl).1.mpr
    (by constructor <;> norm_num)

/-- C5 counterexample: wallet bound, pair `"P"` selected, and the oracle
returning a pair entry with no usable `priceUsd` (reachable from the raw
payload `{"pairs": [{"icon": ...}]}`): the successful buy records
`purchase_price = None`, not `0.0`. -/
theorem buy_purchase_price_none_counterexample :
    (handle_buy_sell_callback
      ⟨fun _ => some "P", fun _ => none, fun _ => some "KP", fun _ => [], fun _ => {}⟩
      1 (.buy_amount 1) (fun _ => .pairInfo none none) (.ok "SIG") 0).state.positions 1
      = [⟨1, none, "SIG", 0, "P"⟩]
    ∧ get_dexscreener_info (fun _ => 0) (.ok [⟨none, some "ICON"⟩])
        = .pairInfo none (some "ICON")
    ∧ (none : Option ℚ) ≠ some 0 := by
  exact ⟨by decide, rfl, by decide⟩

/-- C5 (amended): on a successful buy the recorded purchase price is
exactly the value the oracle lookup produced: `0.0` when the pair is unset
or the oracle returned no data at all (`{}`), and the oracle's stored price
field otherwise — which is Python `None`, not `0.0`, when the returned
pair entry had no usable `priceUsd`. -/
theorem buy_purchase_price_amended
    (st : BotState) (u : UserId) (amount : ℚ) (oracle : String → DexInfo)
    (sig : String) (now : ℚ) (kp : Keypair)
    (hw : st.user_wallets u = some kp) :
    (st.user_pairs u = none →
      (handle_buy_sell_callback st u (.buy_amount amount) oracle (.ok sig) now).state.positions u
        = st.positions u ++ [⟨amount, some 0, sig, now, ""⟩]) ∧
    (∀ p, st.user_pairs u = some p → oracle p = .empty →
      (handle_buy_sell_callback st u (.buy_amount amount) oracle (.ok sig) now).state.positions u
        = st.positions u ++ [⟨amount, some 0, sig, now, p⟩]) ∧
    (∀ p pr ic, st.user_pairs u = some p → oracle p = .pairInfo pr ic →
      (handle_buy_sell_callback st u (.buy_amount amount) oracle (.ok sig) now).state.positions u
        = st.positions u ++ [⟨amount, pr, sig, now, p⟩]) := by
  refine ⟨?_, ?_, ?_⟩
  · intro hp
    simp [handle_buy_sell_callback, hw, hp, execute_buy_transaction]
  · intro p hp ho
    simp [handle_buy_sell_callback, hw, hp, ho, execute_buy_transaction, DexInfo.priceGetD]
  · intro p pr ic hp ho
    simp [handle_buy_sell_callback, hw, hp, ho, execute_buy_transaction, DexInfo.priceGetD]

/-- Witness for `buy_purchase_price_amended`: pair set, oracle empty,
price recorded as `0.0`. -/
theorem buy_purchase_price_amended_witness :
    (handle_buy_sell_callback
      ⟨fun _ => some "P", fun _ => none, fun _ => some "KP", fun _ => [], fun _ => {}⟩
      1 (.buy_amount 1) (fun _ => .empty) (.ok "SIG") 0).state.positions 1
      = [⟨1, some 0, "SIG", 0, "P"⟩] := by
  have h := (buy_purchase_price_amended
    ⟨fun _ => some "P", fun _ => none, fun _ => some "KP", fun _ => [], fun _ => {}⟩
    1 1 (fun _ => .empty) "SIG" 0 "KP" rfl).2.1 "P" rfl rfl
  simpa using h

/-- C4: with a selected pair, a matching position and a failed price
lookup, `positions_command` does not report a "no price" outcome — it
evaluates `(None - purchase_price)` and raises an uncaught `TypeError`
(modelled as `.typeError`), contradicting the spec's stated handling. -/
theorem positions_command_none_price_crash :
    positions_command
      ⟨fun _ => some "P", fun _ => none, fun _ => none,
       fun _ => [⟨2, some 100, "SIG", 0, "P"⟩], fun _ => {}⟩
      1 (fun _ => .empty) = .typeError := by decide

/-- C3: the awaiting flags are set independently, so the button sequence
`menu_connectwallet` then `menu_setpair` by one user leaves two awaiting
modes active at once, violating the at-most-one-mode invariant the spec
states as the intended contract. -/
theorem awaiting_flags_not_mutually_exclusive :
    ((step (step initState (.menuCallback 1 .menu_connectwallet))
        (.menuCallback 1 .menu_setpair)).user_data 1).awaiting_connectwallet = true
    ∧ ((step (step initState (.menuCallback 1 .menu_connectwallet))
        (.menuCallback 1 .menu_setpair)).user_data 1).awaiting_setpair = true := by
  exact ⟨by decide, by decide⟩

/-- C1: for a Buy (preset button or custom free text) with a bound
wallet: on backend failure the user gets the classified error and no
position list changes; on backend success exactly one position is
appended to that user's list, carrying the submitted amount, the price
looked up before submission, the backend signature, the current time and
the session's selected pair. -/
theorem buy_ledger_semantics
    (st : BotState) (u : UserId) (amount : ℚ) (text : String)
    (pyFloat : String → Option ℚ) (decodeKey : String → Option Keypair)
    (oracle : String → DexInfo) (sig e : String) (now : ℚ) (kp : Keypair)
    (hw : st.user_wallets u = some kp) :
    ((∀ v, (handle_buy_sell_callback st u (.buy_amount amount) oracle (.exn e) now).state.positions v
        = st.positions v)
      ∧ (handle_buy_sell_callback st u (.buy_amount amount) oracle (.exn e) now).replies
        = [.errorMsg (buy_error_message e)])
    ∧ ((handle_buy_sell_callback st u (.buy_amount amount) oracle (.ok sig) now).state.positions u
        = st.positions u ++
          [⟨amount,
            (match st.user_pairs u with
              | some pair_id => (oracle pair_id).priceGetD 0
              | none => some 0),
            sig, now, (st.user_pairs u).getD ""⟩]
      ∧ (∀ v, v ≠ u →
          (handle_buy_sell_callback st u (.buy_amount amount) oracle (.ok sig) now).state.positions v
            = st.positions v))
    ∧ ((st.user_data u).awaiting_connectwallet = false →
       (st.user_data u).awaiting_setpair = false →
       (st.user_data u).awaiting_alert = false →
       (st.user_data u).awaiting_buy_custom = true →
       pyFloat text = some amount →
       ((∀ v, (message_handler st u text pyFloat decodeKey oracle (.exn e) now).state.positions v
            = st.positions v)
         ∧ (message_handler st u text pyFloat decodeKey oracle (.exn e) now).replies
            = [.errorMsg (buy_error_message e)])
       ∧ ((message_handler st u text pyFloat decodeKey oracle (.ok sig) now).state.positions u
            = st.positions u ++
              [⟨amount,
                (match st.user_pairs u with
                  | some pair_id => (oracle pair_id).priceGetD 0
                  | none => some 0),
                sig, now, (st.user_pairs u).getD ""⟩]
         ∧ (∀ v, v ≠ u →
            (message_handler st u text pyFloat decodeKey oracle (.ok sig) now).state.positions v
              = st.positions v))) := by
  refine ⟨⟨?_, ?_⟩, ⟨?_, ?_⟩, ?_⟩
  · intro v
    simp [handle_buy_sell_callback, hw, execute_buy_transaction]
  · simp [handle_buy_sell_callback, hw, execute_buy_transaction]
  · cases hp : st.user_pairs u <;>
      simp [handle_buy_sell_callback, hw, hp, execute_buy_transaction]
  · intro v hv
    cases hp : st.user_pairs u <;>
      simp [handle_buy_sell_callback, hw, hp, execute_buy_transaction,
        appendPosition_positions_other _ _ _ _ hv]
  · intro h1 h2 h3 h4 hpf
    refine ⟨⟨?_, ?_⟩, ?_, ?_⟩
    · intro v
      simp [message_handler, h1, h2, h3, h4, hpf, hw, execute_buy_transaction]
    · simp [message_handler, h1, h2, h3, h4, hpf, hw, execute_buy_transaction]
    · cases hp : st.user_pairs u <;>
        simp [message_handler, h1, h2, h3, h4, hpf, hw, hp, execute_buy_transaction]
    · intro v hv
      cases hp : st.user_pairs u <;>
        simp [message_handler, h1, h2, h3, h4, hpf, hw, hp, execute_buy_transaction,
          appendPosition_positions_other _ _ _ _ hv]

/-- Witness for `buy_ledger_semantics`: a concrete successful custom buy
appends one position; a failing preset buy leaves the ledger empty. -/
theorem buy_ledger_semantics_witness :
    (message_handler
      ⟨fun _ => some "P", fun _ => none, fun _ => some "KP", fun _ => [],
       fun _ => { awaiting_buy_custom := true }⟩
      1 "0.25" (fun _ => some (1/4)) (fun _ => none)
      (fun _ => .pairInfo (some 5) none) (.ok "SIG") 99).state.positions 1
      = [⟨1/4, some 5, "SIG", 99, "P"⟩] := by
  have h := ((buy_ledger_semantics
    ⟨fun _ => some "P", fun _ => none, fun _ => some "KP", fun _ => [],
     fun _ => { awaiting_buy_custom := true }⟩
    1 (1/4) "0.25" (fun _ => some (1/4)) (fun _ => none)
    (fun _ => .pairInfo (some 5) none) "SIG" "e" 99 "KP" rfl).2.2
    rfl rfl rfl rfl rfl).2.1
  simpa [DexInfo.priceGetD] using h

/-- C2: Sell All submits exactly the sum of the amounts of the positions
matching the session's selected pair; a zero sum reports "nothing to
sell" with no backend call and no state change; on backend success
exactly the matching positions are removed (others kept); on backend
failure nothing is removed. -/
theorem sell_all_semantics
    (st : BotState) (u : UserId) (oracle : String → DexInfo) (backend : Backend)
    (sig e : String) (now : ℚ) (kp : Keypair) (cp : String)
    (hw : st.user_wallets u = some kp)
    (hp : st.user_pairs u = some cp) :
    ((((st.positions u).filter (fun pos => pos.pair == cp)).map Position.amount).sum = 0 →
      (handle_buy_sell_callback st u .sell_all oracle backend now).state = st
      ∧ (handle_buy_sell_callback st u .sell_all oracle backend now).replies = [.nothingToSell]
      ∧ (handle_buy_sell_callback st u .sell_all oracle backend now).calls = [])
    ∧ ((((st.positions u).filter (fun pos => pos.pair == cp)).map Position.amount).sum ≠ 0 →
      (handle_buy_sell_callback st u .sell_all oracle backend now).calls
        = [.sellTransfer ((((st.positions u).filter (fun pos => pos.pair == cp)).map Position.amount).sum)]
      ∧ ((handle_buy_sell_callback st u .sell_all oracle (.ok sig) now).state.positions u
          = (st.positions u).filter (fun pos => pos.pair != cp)
        ∧ (∀ v, v ≠ u →
            (handle_buy_sell_callback st u .sell_all oracle (.ok sig) now).state.positions v
              = st.positions v))
      ∧ (handle_buy_sell_callback st u .sell_all oracle (.exn e) now).state = st) := by
  have hfold : ((st.positions u).filter (fun pos => pos.pair == cp)).foldl
      (fun acc pos => acc + pos.amount) 0
      = (((st.positions u).filter (fun pos => pos.pair == cp)).map Position.amount).sum := by
    rw [foldl_amount_eq_sum]; ring
  constructor
  · intro h0
    have htot : ((st.positions u).filter (fun pos => pos.pair == cp)).foldl
        (fun acc pos => acc + pos.amount) 0 = 0 := by rw [hfold]; exact h0
    refine ⟨?_, ?_, ?_⟩ <;> simp [handle_buy_sell_callback, hw, hp, htot]
  · intro hne
    have htot : ¬ ((st.positions u).filter (fun pos => pos.pair == cp)).foldl
        (fun acc pos => acc + pos.amount) 0 = 0 := by rw [hfold]; exact hne
    refine ⟨?_, ⟨?_, ?_⟩, ?_⟩
    · cases backend <;>
        simp [handle_buy_sell_callback, hw, hp, hfold, hne, execute_sell_transaction]
    · simp [handle_buy_sell_callback, hw, hp, htot, execute_sell_transaction]
    · intro v hv
      simp [handle_buy_sell_callback, hw, hp, htot, execute_sell_transaction,
        setPositions_positions_other _ _ _ _ hv]
    · simp [handle_buy_sell_callback, hw, hp, htot, execute_sell_transaction]

/-- Witness for `sell_all_semantics`: with positions `3` on pair `"X"`
and `2` on pair `"Y"` and selected pair `"X"`, Sell All submits exactly
`3` and, on success, removes the `"X"` position and keeps the `"Y"`
one. -/
theorem sell_all_semantics_witness :
    (handle_buy_sell_callback
      ⟨fun _ => some "X", fun _ => none, fun _ => some "KP",
       fun _ => [⟨3, some 1, "S1", 0, "X"⟩, ⟨2, some 1, "S2", 0, "Y"⟩], fun _ => {}⟩
      1 .sell_all (fun _ => .empty) (.ok "SIG") 0).calls = [.sellTransfer 3]
    ∧ (handle_buy_sell_callback
      ⟨fun _ => some "X", fun _ => none, fun _ => some "KP",
       fun _ => [⟨3, some 1, "S1", 0, "X"⟩, ⟨2, some 1, "S2", 0, "Y"⟩], fun _ => {}⟩
      1 .sell_all (fun _ => .empty) (.ok "SIG") 0).state.positions 1
      = [⟨2, some 1, "S2", 0, "Y"⟩] := by
  have h := sell_all_semantics
    ⟨fun _ => some "X", fun _ => none, fun _ => some "KP",
     fun _ => [⟨3, some 1, "S1", 0, "X"⟩, ⟨2, some 1, "S2", 0, "Y"⟩], fun _ => {}⟩
    1 (fun _ => .empty) (.ok "SIG") "SIG" "e" 0 "KP" "X" rfl rfl
  have h2 := h.2 (by simp [List.filter])
  refine ⟨?_, ?_⟩
  · have := h2.1
    simp only [List.filter, List.map] at this
    simpa using this
  · have := h2.2.1.1
    simpa [List.filter] using this

/-- Equality of the persistent session data (wallet bindings, selected
pairs, alert thresholds, position ledgers) of two states. -/
def SessionFrameEq (st1 st2 : BotState) : Prop :=
  (∀ v, st1.user_wallets v = st2.user_wallets v) ∧
  (∀ v, st1.user_pairs v = st2.user_pairs v) ∧
  (∀ v, st1.price_alerts v = st2.price_alerts v) ∧
  (∀ v, st1.positions v = st2.positions v)

/-- C7: when exactly one awaiting mode is pending, handling a free-text
reply clears that mode (whatever the outcome), and a parse failure
(non-numeric amount/threshold, undecodable key) additionally leaves the
wallet bindings, pairs, alert thresholds and positions untouched, sends
the error message and makes no backend call. -/
theorem free_text_clears_mode
    (st : BotState) (u : UserId) (text : String)
    (pyFloat : String → Option ℚ) (decodeKey : String → Option Keypair)
    (oracle : String → DexInfo) (backend : Backend) (now : ℚ) :
    (st.user_data u = { awaiting_connectwallet := true } →
      (message_handler st u text pyFloat decodeKey oracle backend now).state.user_data u = {}
      ∧ (decodeKey text = none →
          SessionFrameEq (message_handler st u text pyFloat decodeKey oracle backend now).state st
          ∧ (message_handler st u text pyFloat decodeKey oracle backend now).replies
              = [.walletConnectError, .mainMenu]
          ∧ (message_handler st u text pyFloat decodeKey oracle backend now).calls = []))
    ∧ (st.user_data u = { awaiting_setpair := true } →
        (message_handler st u text pyFloat decodeKey oracle backend now).state.user_data u = {})
    ∧ (st.user_data u = { awaiting_alert := true } →
        (message_handler st u text pyFloat decodeKey oracle backend now).state.user_data u = {}
        ∧ (pyFloat text = none →
            SessionFrameEq (message_handler st u text pyFloat decodeKey oracle backend now).state st
            ∧ (message_handler st u text pyFloat decodeKey oracle backend now).replies
                = [.invalidPrice]
            ∧ (message_handler st u text pyFloat decodeKey oracle backend now).calls = []))
    ∧ (st.user_data u = { awaiting_buy_custom := true } →
        (message_handler st u text pyFloat decodeKey oracle backend now).state.user_data u = {}
        ∧ (pyFloat text = none →
            SessionFrameEq (message_handler st u text pyFloat decodeKey oracle backend now).state st
            ∧ (message_handler st u text pyFloat decodeKey oracle backend now).replies
                = [.invalidAmount]
            ∧ (message_handler st u text pyFloat decodeKey oracle backend now).calls = []))
    ∧ (st.user_data u = { awaiting_sell_custom := true } →
        (message_handler st u text pyFloat decodeKey oracle backend now).state.user_data u = {}
        ∧ (pyFloat text = none →
            SessionFrameEq (message_handler st u text pyFloat decodeKey oracle backend now).state st
            ∧ (message_handler st u text pyFloat decodeKey oracle backend now).replies
                = [.invalidAmount]
            ∧ (message_handler st u text pyFloat decodeKey oracle backend now).calls = [])) := by
  refine ⟨?_, ?_, ?_, ?_, ?_⟩
  · intro hf
    constructor
    · cases hdk : decodeKey text <;> simp [message_handler, hf, hdk]
    · intro hdk
      refine ⟨⟨?_, ?_, ?_, ?_⟩, ?_, ?_⟩ <;> simp [message_handler, hf, hdk]
  · intro hf
    simp [message_handler, hf]
  · intro hf
    constructor
    · cases hpf : pyFloat text <;> simp [message_handler, hf, hpf]
    · intro hpf
      refine ⟨⟨?_, ?_, ?_, ?_⟩, ?_, ?_⟩ <;> simp [message_handler, hf, hpf]
  · intro hf
    constructor
    · cases hpf : pyFloat text with
      | none => simp [message_handler, hf, hpf]
      | some a =>
        cases hw : st.user_wallets u with
        | none => simp [message_handler, hf, hpf, hw]
        | some kp =>
          cases backend <;> simp [message_handler, hf, hpf, hw, execute_buy_transaction]
    · intro hpf
      refine ⟨⟨?_, ?_, ?_, ?_⟩, ?_, ?_⟩ <;> simp [message_handler, hf, hpf]
  · intro hf
    constructor
    · cases hpf : pyFloat text with
      | none => simp [message_handler, hf, hpf]
      | some a =>
        cases hw : st.user_wallets u with
        | none => simp [message_handler, hf, hpf, hw]
        | some kp =>
          cases backend <;> simp [message_handler, hf, hpf, hw, execute_sell_transaction]
    · intro hpf
      refine ⟨⟨?_, ?_, ?_, ?_⟩, ?_, ?_⟩ <;> simp [message_handler, hf, hpf]

/-- Witness for `free_text_clears_mode`: a non-numeric alert reply clears
the mode and only reports the parse error. -/
theorem free_text_clears_mode_witness :
    (message_handler
      ⟨fun _ => none, fun _ => none, fun _ => none, fun _ => [],
       fun _ => { awaiting_alert := true }⟩
      1 "abc" (fun _ => none) (fun _ => none) (fun _ => .empty) (.ok "S") 0).state.user_data 1
      = {}
    ∧ (message_handler
      ⟨fun _ => none, fun _ => none, fun _ => none, fun _ => [],
       fun _ => { awaiting_alert := true }⟩
      1 "abc" (fun _ => none) (fun _ => none) (fun _ => .empty) (.ok "S") 0).replies
      = [.invalidPrice] := by
  have h := (free_text_clears_mode
    ⟨fun _ => none, fun _ => none, fun _ => none, fun _ => [],
     fun _ => { awaiting_alert := true }⟩
    1 "abc" (fun _ => none) (fun _ => none) (fun _ => .empty) (.ok "S") 0).2.2.1 rfl
  exact ⟨h.1, (h.2 rfl).2.1⟩

/-! ## The wallet-presence invariant behind the custom buy/sell flags -/

/-- A user with a pending custom buy/sell amount always has a wallet
binding. -/
def WalletInv (st : BotState) : Prop :=
  ∀ u, ((st.user_data u).awaiting_buy_custom = true
        ∨ (st.user_data u).awaiting_sell_custom = true)
    → (st.user_wallets u).isSome = true

theorem aux_clear_flags_back (st : BotState) (u0 : UserId) (f : Flags → Flags)
    (hb : ∀ fl, (f fl).awaiting_buy_custom = true → fl.awaiting_buy_custom = true)
    (hs : ∀ fl, (f fl).awaiting_sell_custom = true → fl.awaiting_sell_custom = true)
    (u : UserId) :
    (((st.updateFlags u0 f).user_data u).awaiting_buy_custom = true
      ∨ ((st.updateFlags u0 f).user_data u).awaiting_sell_custom = true)
    → (st.user_data u).awaiting_buy_custom = true
      ∨ (st.user_data u).awaiting_sell_custom = true := by
  intro hu
  by_cases h : u = u0
  · subst h
    rw [updateFlags_user_data_self] at hu
    rcases hu with h1 | h1
    · exact Or.inl (hb _ h1)
    · exact Or.inr (hs _ h1)
  · rwa [updateFlags_user_data_other st u0 u f h] at hu

theorem handle_main_menu_flags_and_wallets (st : BotState) (u0 : UserId) (d : MenuData)
    (u : UserId) :
    (handle_main_menu_callback st u0 d).1.user_wallets u = st.user_wallets u
    ∧ ((((handle_main_menu_callback st u0 d).1.user_data u).awaiting_buy_custom = true
        ∨ ((handle_main_menu_callback st u0 d).1.user_data u).awaiting_sell_custom = true)
      → (st.user_data u).awaiting_buy_custom = true
        ∨ (st.user_data u).awaiting_sell_custom = true) := by
  cases d with
  | menu_connectwallet =>
    exact ⟨rfl, aux_clear_flags_back st u0 (fun fl => { fl with awaiting_connectwallet := true }) (fun fl h => h) (fun fl h => h) u⟩
  | menu_setpair =>
    exact ⟨rfl, aux_clear_flags_back st u0 (fun fl => { fl with awaiting_setpair := true }) (fun fl h => h) (fun fl h => h) u⟩
  | menu_buy => exact ⟨rfl, fun hu => hu⟩
  | menu_sell => exact ⟨rfl, fun hu => hu⟩
  | menu_balance => exact ⟨rfl, fun hu => hu⟩
  | menu_positions => exact ⟨rfl, fun hu => hu⟩
  | menu_alert =>
    exact ⟨rfl, aux_clear_flags_back st u0 (fun fl => { fl with awaiting_alert := true }) (fun fl h => h) (fun fl h => h) u⟩

theorem handle_buy_sell_flags_and_wallets (st : BotState) (u0 : UserId)
    (d : BuySellData) (oracle : String → DexInfo) (backend : Backend) (now : ℚ)
    (u : UserId) :
    (handle_buy_sell_callback st u0 d oracle backend now).state.user_wallets u
      = st.user_wallets u
    ∧ ((((handle_buy_sell_callback st u0 d oracle backend now).state.user_data u).awaiting_buy_custom = true
        ∨ ((handle_buy_sell_callback st u0 d oracle backend now).state.user_data u).awaiting_sell_custom = true)
      → ((st.user_data u).awaiting_buy_custom = true
          ∨ (st.user_data u).awaiting_sell_custom = true)
        ∨ (st.user_wallets u).isSome = true) := by
  cases hw : st.user_wallets u0 with
  | none =>
    have hstate : (handle_buy_sell_callback st u0 d oracle backend now).state = st := by
      simp [handle_buy_sell_callback, hw]
    rw [hstate]
    exact ⟨rfl, fun hu => Or.inl hu⟩
  | some kp =>
    cases d with
    | buy_custom =>
      have hstate : (handle_buy_sell_callback st u0 .buy_custom oracle backend now).state
          = st.updateFlags u0 (fun f => { f with awaiting_buy_custom := true }) := by
        simp [handle_buy_sell_callback, hw]
      rw [hstate, updateFlags_user_wallets]
      refine ⟨rfl, ?_⟩
      intro hu
      by_cases h : u = u0
      · subst h
        exact Or.inr (by rw [hw]; rfl)
      · rw [updateFlags_user_data_other st u0 u _ h] at hu
        exact Or.inl hu
    | sell_custom =>
      have hstate : (handle_buy_sell_callback st u0 .sell_custom oracle backend now).state
          = st.updateFlags u0 (fun f => { f with awaiting_sell_custom := true }) := by
        simp [handle_buy_sell_callback, hw]
      rw [hstate, updateFlags_user_wallets]
      refine ⟨rfl, ?_⟩
      intro hu
      by_cases h : u = u0
      · subst h
        exact Or.inr (by rw [hw]; rfl)
      · rw [updateFlags_user_data_other st u0 u _ h] at hu
        exact Or.inl hu
    | buy_amount a =>
      have hud : (handle_buy_sell_callback st u0 (.buy_amount a) oracle backend now).state.user_data
          = st.user_data := by
        cases backend <;> simp [handle_buy_sell_callback, hw, execute_buy_transaction]
      have hwal : (handle_buy_sell_callback st u0 (.buy_amount a) oracle backend now).state.user_wallets
          = st.user_wallets := by
        cases backend <;> simp [handle_buy_sell_callback, hw, execute_buy_transaction]
      rw [hud, hwal]
      exact ⟨rfl, fun hu => Or.inl hu⟩
    | sell_all =>
      by_cases h0 : ((st.positions u0).filter
          (fun pos => pos.pair == (st.user_pairs u0).getD "")).foldl
          (fun acc pos => acc + pos.amount) 0 = 0
      · have hstate : (handle_buy_sell_callback st u0 .sell_all oracle backend now).state = st := by
          simp [handle_buy_sell_callback, hw, h0]
        rw [hstate]
        exact ⟨rfl, fun hu => Or.inl hu⟩
      · have hud : (handle_buy_sell_callback st u0 .sell_all oracle backend now).state.user_data
            = st.user_data := by
          cases backend <;> simp [handle_buy_sell_callback, hw, h0, execute_sell_transaction]
        have hwal : (handle_buy_sell_callback st u0 .sell_all oracle backend now).state.user_wallets
            = st.user_wallets := by
          cases backend <;> simp [handle_buy_sell_callback, hw, h0, execute_sell_transaction]
        rw [hud, hwal]
        exact ⟨rfl, fun hu => Or.inl hu⟩
    | sell_amount a =>
      have hstate : (handle_buy_sell_callback st u0 (.sell_amount a) oracle backend now).state
          = st := by
        cases backend <;> simp [handle_buy_sell_callback, hw, execute_sell_transaction]
      rw [hstate]
      exact ⟨rfl, fun hu => Or.inl hu⟩

theorem message_handler_flags_and_wallets (st : BotState) (u0 : UserId) (text : String)
    (pf : String → Option ℚ) (dk : String → Option Keypair)
    (oracle : String → DexInfo) (backend : Backend) (now : ℚ) (u : UserId) :
    ((st.user_wallets u).isSome = true →
      ((message_handler st u0 text pf dk oracle backend now).state.user_wallets u).isSome = true)
    ∧ ((((message_handler st u0 text pf dk oracle backend now).state.user_data u).awaiting_buy_custom = true
        ∨ ((message_handler st u0 text pf dk oracle backend now).state.user_data u).awaiting_sell_custom = true)
      → (st.user_data u).awaiting_buy_custom = true
        ∨ (st.user_data u).awaiting_sell_custom = true) := by
  by_cases h1 : (st.user_data u0).awaiting_connectwallet = true
  · cases hdk : dk text with
    | some kp =>
      have hstate : (message_handler st u0 text pf dk oracle backend now).state
          = (st.updateFlags u0 (fun f => { f with awaiting_connectwallet := false })).setWallet u0 kp := by
        simp [message_handler, h1, hdk]
      rw [hstate]
      constructor
      · intro hsome
        by_cases h : u = u0
        · subst h; simp
        · rw [setWallet_user_wallets_other _ _ _ _ h, updateFlags_user_wallets]
          exact hsome
      · rw [setWallet_user_data]
        exact aux_clear_flags_back st u0 (fun fl => { fl with awaiting_connectwallet := false }) (fun fl h => h) (fun fl h => h) u
    | none =>
      have hstate : (message_handler st u0 text pf dk oracle backend now).state
          = st.updateFlags u0 (fun f => { f with awaiting_connectwallet := false }) := by
        simp [message_handler, h1, hdk]
      rw [hstate, updateFlags_user_wallets]
      exact ⟨fun h => h, aux_clear_flags_back st u0 (fun fl => { fl with awaiting_connectwallet := false }) (fun fl h => h) (fun fl h => h) u⟩
  · by_cases h2 : (st.user_data u0).awaiting_setpair = true
    · have hstate : (message_handler st u0 text pf dk oracle backend now).state
          = (st.updateFlags u0 (fun f => { f with awaiting_setpair := false })).setPair u0 text := by
        simp [message_handler, h1, h2]
      rw [hstate, setPair_user_wallets, setPair_user_data, updateFlags_user_wallets]
      exact ⟨fun h => h, aux_clear_flags_back st u0 (fun fl => { fl with awaiting_setpair := false }) (fun fl h => h) (fun fl h => h) u⟩
    · by_cases h3 : (st.user_data u0).awaiting_alert = true
      · cases hpf : pf text with
        | some t =>
          have hstate : (message_handler st u0 text pf dk oracle backend now).state
              = (st.updateFlags u0 (fun f => { f with awaiting_alert := false })).setAlert u0 t := by
            simp [message_handler, h1, h2, h3, hpf]
          rw [hstate, setAlert_user_wallets, setAlert_user_data, updateFlags_user_wallets]
          exact ⟨fun h => h, aux_clear_flags_back st u0 (fun fl => { fl with awaiting_alert := false }) (fun fl h => h) (fun fl h => h) u⟩
        | none =>
          have hstate : (message_handler st u0 text pf dk oracle backend now).state
              = st.updateFlags u0 (fun f => { f with awaiting_alert := false }) := by
            simp [message_handler, h1, h2, h3, hpf]
          rw [hstate, updateFlags_user_wallets]
          exact ⟨fun h => h, aux_clear_flags_back st u0 (fun fl => { fl with awaiting_alert := false }) (fun fl h => h) (fun fl h => h) u⟩
      · by_cases h4 : (st.user_data u0).awaiting_buy_custom = true
        · have hshape : (message_handler st u0 text pf dk oracle backend now).state.user_data
              = (st.updateFlags u0 (fun f => { f with awaiting_buy_custom := false })).user_data
            ∧ (message_handler st u0 text pf dk oracle backend now).state.user_wallets
              = st.user_wallets := by
            cases hpf : pf text with
            | none => constructor <;> simp [message_handler, h1, h2, h3, h4, hpf]
            | some a =>
              cases hwu : st.user_wallets u0 with
              | none => constructor <;> simp [message_handler, h1, h2, h3, h4, hpf, hwu]
              | some kp =>
                cases backend <;> constructor <;>
                  simp [message_handler, h1, h2, h3, h4, hpf, hwu, execute_buy_transaction]
          rw [hshape.1, hshape.2]
          exact ⟨fun h => h, aux_clear_flags_back st u0
            (fun fl => { fl with awaiting_buy_custom := false })
            (fun fl h => (Bool.false_ne_true h).elim) (fun fl h => h) u⟩
        · by_cases h5 : (st.user_data u0).awaiting_sell_custom = true
          · have hshape : (message_handler st u0 text pf dk oracle backend now).state.user_data
                = (st.updateFlags u0 (fun f => { f with awaiting_sell_custom := false })).user_data
              ∧ (message_handler st u0 text pf dk oracle backend now).state.user_wallets
                = st.user_wallets := by
              cases hpf : pf text with
              | none => constructor <;> simp [message_handler, h1, h2, h3, h4, h5, hpf]
              | some a =>
                cases hwu : st.user_wallets u0 with
                | none => constructor <;> simp [message_handler, h1, h2, h3, h4, h5, hpf, hwu]
                | some kp =>
                  cases backend <;> constructor <;>
                    simp [message_handler, h1, h2, h3, h4, h5, hpf, hwu, execute_sell_transaction]
            rw [hshape.1, hshape.2]
            exact ⟨fun h => h, aux_clear_flags_back st u0
              (fun fl => { fl with awaiting_sell_custom := false })
              (fun fl h => h) (fun fl h => (Bool.false_ne_true h).elim) u⟩
          · have hstate : (message_handler st u0 text pf dk oracle backend now).state = st := by
              simp [message_handler, h1, h2, h3, h4, h5]
            rw [hstate]
            exact ⟨fun h => h, fun hu => hu⟩

theorem connectwallet_command_flags_and_wallets (st : BotState) (u0 : UserId)
    (args : List String) (dk : String → Option Keypair) (u : UserId) :
    ((st.user_wallets u).isSome = true →
      ((connectwallet_command st u0 args dk).1.user_wallets u).isSome = true)
    ∧ ((((connectwallet_command st u0 args dk).1.user_data u).awaiting_buy_custom = true
        ∨ ((connectwallet_command st u0 args dk).1.user_data u).awaiting_sell_custom = true)
      → (st.user_data u).awaiting_buy_custom = true
        ∨ (st.user_data u).awaiting_sell_custom = true) := by
  cases args with
  | nil =>
    exact ⟨fun h => h, aux_clear_flags_back st u0 (fun fl => { fl with awaiting_connectwallet := true }) (fun fl h => h) (fun fl h => h) u⟩
  | cons pk rest =>
    cases hdk : dk pk with
    | some kp =>
      have hstate : (connectwallet_command st u0 (pk :: rest) dk).1 = st.setWallet u0 kp := by
        simp [connectwallet_command, hdk]
      rw [hstate, setWallet_user_data]
      constructor
      · intro hsome
        by_cases h : u = u0
        · subst h; simp
        · rw [setWallet_user_wallets_other _ _ _ _ h]; exact hsome
      · exact fun hu => hu
    | none =>
      have hstate : (connectwallet_command st u0 (pk :: rest) dk).1 = st := by
        simp [connectwallet_command, hdk]
      rw [hstate]
      exact ⟨fun h => h, fun hu => hu⟩

theorem setpair_command_frame (st : BotState) (u0 : UserId) (args : List String)
    (u : UserId) :
    (setpair_command st u0 args).1.user_wallets u = st.user_wallets u
    ∧ (setpair_command st u0 args).1.user_data u = st.user_data u := by
  cases args with
  | nil => exact ⟨rfl, rfl⟩
  | cons a rest => exact ⟨rfl, rfl⟩

theorem alert_command_frame (st : BotState) (u0 : UserId) (args : List String)
    (pf : String → Option ℚ) (u : UserId) :
    (alert_command st u0 args pf).1.user_wallets u = st.user_wallets u
    ∧ (alert_command st u0 args pf).1.user_data u = st.user_data u := by
  cases args with
  | nil => exact ⟨rfl, rfl⟩
  | cons a rest =>
    cases hpf : pf a with
    | some t =>
      have hstate : (alert_command st u0 (a :: rest) pf).1 = st.setAlert u0 t := by
        simp [alert_command, hpf]
      rw [hstate]
      exact ⟨rfl, rfl⟩
    | none =>
      have hstate : (alert_command st u0 (a :: rest) pf).1 = st := by
        simp [alert_command, hpf]
      rw [hstate]
      exact ⟨rfl, rfl⟩

theorem walletInv_step (st : BotState) (e : Event) (ih : WalletInv st) :
    WalletInv (step st e) := by
  cases e with
  | menuCallback u0 d =>
    intro u hu
    have h := handle_main_menu_flags_and_wallets st u0 d u
    show ((handle_main_menu_callback st u0 d).1.user_wallets u).isSome = true
    rw [h.1]
    exact ih u (h.2 hu)
  | buySellCallback u0 d oracle backend now =>
    intro u hu
    have h := handle_buy_sell_flags_and_wallets st u0 d oracle backend now u
    show ((handle_buy_sell_callback st u0 d oracle backend now).state.user_wallets u).isSome = true
    rw [h.1]
    rcases h.2 hu with hold | hsome
    · exact ih u hold
    · exact hsome
  | message u0 text pf dk oracle backend now =>
    intro u hu
    have h := message_handler_flags_and_wallets st u0 text pf dk oracle backend now u
    exact h.1 (ih u (h.2 hu))
  | cmdConnectwallet u0 args dk =>
    intro u hu
    have h := connectwallet_command_flags_and_wallets st u0 args dk u
    exact h.1 (ih u (h.2 hu))
  | cmdSetpair u0 args =>
    intro u hu
    have h := setpair_command_frame st u0 args u
    have hu2 : ((setpair_command st u0 args).1.user_data u).awaiting_buy_custom = true
        ∨ ((setpair_command st u0 args).1.user_data u).awaiting_sell_custom = true := hu
    rw [h.2] at hu2
    show ((setpair_command st u0 args).1.user_wallets u).isSome = true
    rw [h.1]
    exact ih u hu2
  | cmdAlert u0 args pf =>
    intro u hu
    have h := alert_command_frame st u0 args pf u
    have hu2 : ((alert_command st u0 args pf).1.user_data u).awaiting_buy_custom = true
        ∨ ((alert_command st u0 args pf).1.user_data u).awaiting_sell_custom = true := hu
    rw [h.2] at hu2
    show ((alert_command st u0 args pf).1.user_wallets u).isSome = true
    rw [h.1]
    exact ih u hu2
  | cmdStart u0 => exact fun u hu => ih u hu
  | cmdBuy u0 => exact fun u hu => ih u hu
  | cmdSell u0 => exact fun u hu => ih u hu
  | cmdBalance u0 => exact fun u hu => ih u hu
  | cmdPositions u0 => exact fun u hu => ih u hu
  | cmdPrice u0 => exact fun u hu => ih u hu

theorem no_keyerror_of_walletInv (st : BotState) (hinv : WalletInv st) (u : UserId)
    (text : String) (pf : String → Option ℚ) (dk : String → Option Keypair)
    (oracle : String → DexInfo) (backend : Backend) (now : ℚ) :
    Reply.unhandledKeyError ∉ (message_handler st u text pf dk oracle backend now).replies := by
  by_cases h1 : (st.user_data u).awaiting_connectwallet = true
  · cases hdk : dk text <;> simp [message_handler, h1, hdk]
  · by_cases h2 : (st.user_data u).awaiting_setpair = true
    · simp [message_handler, h1, h2]
    · by_cases h3 : (st.user_data u).awaiting_alert = true
      · cases hpf : pf text <;> simp [message_handler, h1, h2, h3, hpf]
      · by_cases h4 : (st.user_data u).awaiting_buy_custom = true
        · have hsome := hinv u (Or.inl h4)
          cases ho : st.user_wallets u with
          | none => rw [ho] at hsome; exact absurd hsome (by simp)
          | some kp =>
            cases hpf : pf text with
            | none => simp [message_handler, h1, h2, h3, h4, hpf]
            | some a =>
              cases backend <;>
                simp [message_handler, h1, h2, h3, h4, hpf, ho, execute_buy_transaction]
        · by_cases h5 : (st.user_data u).awaiting_sell_custom = true
          · have hsome := hinv u (Or.inr h5)
            cases ho : st.user_wallets u with
            | none => rw [ho] at hsome; exact absurd hsome (by simp)
            | some kp =>
              cases hpf : pf text with
              | none => simp [message_handler, h1, h2, h3, h4, h5, hpf]
              | some a =>
                cases backend <;>
                  simp [message_handler, h1, h2, h3, h4, h5, hpf, ho, execute_sell_transaction]
          · simp [message_handler, h1, h2, h3, h4, h5]

/-- C10: in every reachable state, a user whose `awaiting_buy_custom` or
`awaiting_sell_custom` flag is set has a wallet binding (the flags are set
only behind the wallet check and bindings are never removed), so the
unguarded `user_wallets[user_id]` lookup in the free-text buy/sell
branches never raises. -/
theorem custom_mode_implies_wallet_bound (st : BotState) (h : Reachable st) :
    (∀ u, ((st.user_data u).awaiting_buy_custom = true
        ∨ (st.user_data u).awaiting_sell_custom = true)
      → (st.user_wallets u).isSome = true)
    ∧ (∀ (u : UserId) (text : String) (pf : String → Option ℚ)
        (dk : String → Option Keypair) (oracle : String → DexInfo)
        (backend : Backend) (now : ℚ),
        Reply.unhandledKeyError ∉ (message_handler st u text pf dk oracle backend now).replies) := by
  have hinv : WalletInv st := by
    induction h with
    | init =>
      intro u hu
      rcases hu with hu | hu <;> simp [initState] at hu
    | next e hr ih => exact walletInv_step _ e ih
  exact ⟨hinv, fun u text pf dk oracle backend now =>
    no_keyerror_of_walletInv st hinv u text pf dk oracle backend now⟩

/-- Witness for `custom_mode_implies_wallet_bound`: after connecting a
wallet and pressing the custom-buy button, the flag is set and the wallet
binding is indeed present. -/
theorem custom_mode_implies_wallet_bound_witness :
    (((step (step initState (.cmdConnectwallet 1 ["K"] (fun _ => some "KP")))
        (.buySellCallback 1 .buy_custom (fun _ => .empty) (.ok "S") 0)).user_data 1).awaiting_buy_custom = true)
    ∧ (((step (step initState (.cmdConnectwallet 1 ["K"] (fun _ => some "KP")))
        (.buySellCallback 1 .buy_custom (fun _ => .empty) (.ok "S") 0)).user_wallets 1).isSome = true) := by
  refine ⟨by decide, ?_⟩
  exact (custom_mode_implies_wallet_bound
    (step (step initState (.cmdConnectwallet 1 ["K"] (fun _ => some "KP")))
      (.buySellCallback 1 .buy_custom (fun _ => .empty) (.ok "S") 0))
    (Reachable.next _ (Reachable.next _ Reachable.init))).1 1 (Or.inl (by decide))

end TelegramBot
